import Mathlib

set_option linter.dupNamespace false

/-!
inoutgg/common: session authentication, password-reset form handler, schema parsing

A shallow embedding of three source files of the repository:

* `authentication/strategy/session/session.go`  (namespace `session`)
* `authentication/password/reset/form_password_reset.go`  (namespace `passwordreset`)
* `sql/db/dbtesting/testing.go`  (namespace `dbtesting`)

Go values of type `error` are modelled by the inductive type `GoError`; a `nil`
error is `none`.  Calls that leave the function under study (driver, cookie
primitives) are recorded, in program order, in a list of `Event`s.
-/

/-! ## Go errors -/

/-- A Go `error` value.  `new` is a leaf created by `errors.New` (sentinels are
leaves, identified by their text), `wrap` is `fmt.Errorf("text: %w", err)`,
`http` is the repository's `httperror.FromError(err, status)` and `join` is
`errors.Join(a, b)`. -/
inductive GoError where
  | new (text : String)
  | wrap (text : String) (err : GoError)
  | http (err : GoError) (status : Nat)
  | join (a b : GoError)
  deriving DecidableEq, Repr

namespace errors

/-- The standard library's `errors.Is`: the error itself is compared with the
target, then the wrapped errors are searched depth first. -/
def Is : GoError → GoError → Bool
  | .new t, target => decide (GoError.new t = target)
  | .wrap t e, target => decide (GoError.wrap t e = target) || Is e target
  | .http e s, target => decide (GoError.http e s = target) || Is e target
  | .join a b, target => decide (GoError.join a b = target) || Is a target || Is b target

end errors

namespace http

def StatusBadRequest : Nat := 400
def StatusUnauthorized : Nat := 401
def StatusForbidden : Nat := 403
def StatusInternalServerError : Nat := 500

end http

namespace httperror

/-- Modelled from the spec: `httperror.FromError` lives in the repository's
`http/error` package, which is not among the given sources.  It builds the HTTP
error that carries `err` together with the response status. -/
def FromError (err : GoError) (status : Nat) : GoError := .http err status

end httperror

/-! ## encoding/base64 -/

namespace base64

/-- Value of a character in the URL-safe alphabet `A-Z a-z 0-9 - _`. -/
def decodeMap (c : Char) : Option Nat :=
  let n := c.toNat
  if 65 ≤ n ∧ n ≤ 90 then some (n - 65)
  else if 97 ≤ n ∧ n ≤ 122 then some (n - 97 + 26)
  else if 48 ≤ n ∧ n ≤ 57 then some (n - 48 + 52)
  else if n = 45 then some 62
  else if n = 95 then some 63
  else none

/-- Decoding of the input, four characters at a time, once line breaks are
removed.  Padding is mandatory and may only close the final group. -/
def decodeQuanta : List Char → Option (List Nat)
  | [] => some []
  | a :: b :: c :: d :: rest =>
    match decodeMap a, decodeMap b with
    | some x, some y =>
      if c.toNat = 61 then
        if d.toNat = 61 ∧ rest = [] then some [(x * 262144 + y * 4096) / 65536 % 256]
        else none
      else
        match decodeMap c with
        | none => none
        | some z =>
          if d.toNat = 61 then
            if rest = [] then
              let v := x * 262144 + y * 4096 + z * 64
              some [v / 65536 % 256, v / 256 % 256]
            else none
          else
            match decodeMap d, decodeQuanta rest with
            | some u, some bs =>
              let v := x * 262144 + y * 4096 + z * 64 + u
              some (v / 65536 % 256 :: v / 256 % 256 :: v % 256 :: bs)
            | _, _ => none
    | _, _ => none
  | _ => none

/-- The standard library's `base64.URLEncoding.DecodeString`: carriage returns
and line feeds are skipped, every other character must belong to the URL-safe
alphabet or be closing padding.  The bytes are returned as numbers below 256. -/
def URLEncoding.DecodeString (s : String) : Except GoError (List Nat) :=
  match decodeQuanta (s.toList.filter (fun c => c.toNat ≠ 10 ∧ c.toNat ≠ 13)) with
  | some bs => .ok bs
  | none => .error (.new "illegal base64 data")

end base64

/-! ## Collaborators of the session strategy -/

/-- A `uuid.UUID`: sixteen bytes, read as one number. -/
abbrev UUID := Nat

namespace uuid

/-- The zero value `uuid.UUID{}`. -/
def Nil : UUID := 0

end uuid

namespace strategy

/-- The resolved user `strategy.User[T]`: an identifier and the application's
payload. -/
structure User (T : Type) where
  ID : UUID
  T : T

end strategy

namespace user

/-- Modelled from the spec: the sentinel `user.ErrUnauthorizedUser` is declared
in the repository's `authentication/user` package, outside the given sources;
it is the distinguishable error returned for an unauthorized request. -/
def ErrUnauthorizedUser : GoError := .new "authentication/user: unauthorized user"

end user

/-- An inbound `*http.Request`, reduced to what the code reads from it: its
cookies (name and value, in header order) and the resolved user kept in its
context, if any. -/
structure Request (T : Type) where
  cookies : List (String × String)
  user : Option (strategy.User T)

namespace user

/-- Modelled from the spec: `user.FromRequest` (package `authentication/user`,
outside the given sources) returns the already-resolved user of the request
context, or nil when there is none. -/
def FromRequest {T : Type} (r : Request T) : Option (strategy.User T) := r.user

end user

namespace cookie

/-- Modelled from the spec: `cookie.Get` (package `http/cookie`, outside the
given sources) reads the value of the named cookie; an absent cookie reads as
the empty string. -/
def Get {T : Type} (r : Request T) (name : String) : String :=
  (r.cookies.lookup name).getD ""

end cookie

/-- A row of the session table as returned by `FindUserSessionByID`. -/
structure UserSession where
  ID : UUID
  UserID : UUID
  deriving DecidableEq, Repr

/-- What one execution does outside of itself, in program order. -/
inductive Event where
  | cookieGet (name : String)
  | driverBegin
  | driverQueries
  | txQueries
  | findUserSessionByID (id : UUID)
  | expireSessionByID (id : UUID)
  | txCommit
  | txRollback
  | cookieDelete (name : String)
  deriving DecidableEq, Repr

/-- Recognises the expire queries among the events. -/
def Event.isExpire : Event → Bool
  | .expireSessionByID _ => true
  | _ => false

/-- The result of a call together with the events it caused. -/
structure Run (α : Type) where
  result : α
  trace : List Event

namespace driver

/-- The answers of the injected `driver.Driver` during one execution: the error
of `Begin` (none: a transaction was opened), the outcome of each query and the
error of `Commit`. -/
structure Driver where
  Begin : Option GoError
  FindUserSessionByID : UUID → Except GoError UserSession
  ExpireSessionByID : UUID → Option GoError
  Commit : Option GoError

end driver

namespace dbutil

/-- The classifier `dbutil.IsNotFoundError` of the repository's `sql/dbutil`
package, outside the given sources; it is taken as given. -/
abbrev NotFoundClassifier := GoError → Bool

end dbutil

/-! ## authentication/strategy/session/session.go -/

namespace session

/-- Initial value of the package-level variable `CookieName`. -/
def CookieName : String := "usid"

structure Config where
  CookieName : String

/-- The strategy value built by `New`. -/
structure session where
  driver : driver.Driver
  config : Config

/-- Package-level state the functions read: the current value of the variable
`CookieName`, and the not-found classifier of `dbutil`. -/
structure Package where
  CookieName : String
  IsNotFoundError : dbutil.NotFoundClassifier

def New (driver : driver.Driver) (config : Config) : session := ⟨driver, config⟩

/-- The package state of a program that never assigns the variable `CookieName`. -/
def initialPackage (isNotFound : dbutil.NotFoundClassifier) : Package :=
  ⟨CookieName, isNotFound⟩

def decodeSession (val : String) : Except GoError (List Nat) :=
  match base64.URLEncoding.DecodeString val with
  | .error err => .error (.wrap "authentication/session: failed to decode cookie" err)
  | .ok bytes => .ok bytes

/-- The part of `Authenticate` that runs once the transaction is open, up to the
return statement; the deferred rollback is added by the caller. -/
def authenticateTx {T : Type} (p : Package) (s : session) :
    Run (Option (strategy.User T) × Option GoError) :=
  match s.driver.FindUserSessionByID uuid.Nil with
  | .error err =>
    if p.IsNotFoundError err then
      ⟨(none, some user.ErrUnauthorizedUser), [.txQueries, .findUserSessionByID uuid.Nil]⟩
    else
      ⟨(none, some (.wrap "authentication/session: failed to find user session" err)),
        [.txQueries, .findUserSessionByID uuid.Nil]⟩
  | .ok _ =>
    match s.driver.Commit with
    | some err =>
      ⟨(none, some (.wrap "authentication/session: failed to commit transaction" err)),
        [.txQueries, .findUserSessionByID uuid.Nil, .txCommit]⟩
    | none => ⟨(none, none), [.txQueries, .findUserSessionByID uuid.Nil, .txCommit]⟩

def Authenticate {T : Type} (p : Package) (s : session) (r : Request T) :
    Run (Option (strategy.User T) × Option GoError) :=
  let val := cookie.Get r p.CookieName
  if val = "" then
    ⟨(none, some user.ErrUnauthorizedUser), [.cookieGet p.CookieName]⟩
  else
    match decodeSession val with
    | .error err =>
      ⟨(none, some (.wrap "authentication/session: failed to decode session" err)),
        [.cookieGet p.CookieName]⟩
    | .ok _ =>
      match s.driver.Begin with
      | some err =>
        ⟨(none, some (.wrap "authentication/session: failed to begin transaction" err)),
          [.cookieGet p.CookieName, .driverBegin]⟩
      | none =>
        let body := authenticateTx (T := T) p s
        ⟨body.result, [.cookieGet p.CookieName, .driverBegin] ++ body.trace ++ [.txRollback]⟩

def LogOut {T : Type} (s : session) (r : Request T) : Run (Option GoError) :=
  match user.FromRequest r with
  | none =>
    ⟨some (httperror.FromError user.ErrUnauthorizedUser http.StatusUnauthorized),
      [.driverQueries]⟩
  | some usr =>
    match s.driver.ExpireSessionByID usr.ID with
    | some err =>
      ⟨some (httperror.FromError err http.StatusInternalServerError),
        [.driverQueries, .expireSessionByID usr.ID]⟩
    | none =>
      ⟨none, [.driverQueries, .expireSessionByID usr.ID, .cookieDelete s.config.CookieName]⟩

end session

/-! ## authentication/password/reset/form_password_reset.go -/

namespace passwordreset

/-- Modelled from the spec: the sentinel `ErrAuthorizedUser` of package
`passwordreset` is declared in a file outside the given sources; it signals the
authorized-user conflict. -/
def ErrAuthorizedUser : GoError := .new "authentication/password/reset: authorized user access"

/-- Modelled from the spec: the sentinel `ErrUsedPasswordResetToken` of package
`passwordreset` is declared in a file outside the given sources; it signals a
reset token that was already consumed. -/
def ErrUsedPasswordResetToken : GoError :=
  .new "authentication/password/reset: used password reset token"

structure RequestForm where
  Email : String
  deriving DecidableEq, Repr

structure ConfirmForm where
  Password : String
  ResetToken : String
  deriving DecidableEq, Repr

/-- The underlying `Handler`, declared outside the given sources: the error each
of its two operations answers with (none: success). -/
structure Handler where
  HandlePasswordResetRequest : String → Option GoError
  HandlePasswordResetConfirm : String → String → Option GoError

structure FormHandler where
  h : Handler

def FormHandler.parsePasswordResetRequestForm {T : Type} (_h : FormHandler) (_req : Request T) :
    RequestForm × Option GoError :=
  (⟨""⟩, none)

def FormHandler.parsePasswordResetConfirmForm {T : Type} (_h : FormHandler) (_req : Request T) :
    ConfirmForm × Option GoError :=
  (⟨"", ""⟩, none)

def FormHandler.HandlePasswordResetRequest {T : Type} (h : FormHandler) (req : Request T) :
    Option GoError :=
  match h.parsePasswordResetRequestForm req with
  | (_, some err) => some (httperror.FromError err http.StatusBadRequest)
  | (form, none) =>
    match h.h.HandlePasswordResetRequest form.Email with
    | some err =>
      if errors.Is err ErrAuthorizedUser then
        some (httperror.FromError err http.StatusForbidden)
      else
        some (httperror.FromError err http.StatusInternalServerError)
    | none => none

/-- The statements of `HandlePasswordResetConfirm` that follow the call of the
form parser, as a function of what the parser returned. -/
def FormHandler.confirmParsed (h : FormHandler) (parsed : ConfirmForm × Option GoError) :
    Option GoError :=
  match parsed.2 with
  | some err => some (httperror.FromError err http.StatusBadRequest)
  | none =>
    match h.h.HandlePasswordResetConfirm parsed.1.Password parsed.1.ResetToken with
    | some err =>
      if errors.Is err ErrAuthorizedUser then
        some (httperror.FromError err http.StatusForbidden)
      else if errors.Is err ErrUsedPasswordResetToken then
        some (httperror.FromError err http.StatusBadRequest)
      else
        some (httperror.FromError err http.StatusInternalServerError)
    | none => none

def FormHandler.HandlePasswordResetConfirm {T : Type} (h : FormHandler) (req : Request T) :
    Option GoError :=
  h.confirmParsed (h.parsePasswordResetConfirmForm req)

end passwordreset

/-! ## sql/db/dbtesting/testing.go -/

namespace unicode

/-- The standard library's `unicode.IsSpace`: the Latin-1 spaces and the code
points with the White_Space property. -/
def IsSpace (r : Char) : Bool :=
  let n := r.toNat
  if n ≤ 255 then
    n = 9 || n = 10 || n = 11 || n = 12 || n = 13 || n = 32 || n = 133 || n = 160
  else
    n = 5760 || (8192 ≤ n && n ≤ 8202) || n = 8232 || n = 8233 || n = 8239 || n = 8287
      || n = 12288

end unicode

namespace strings

/-- Cutting of a character sequence at every occurrence of `sep`: the text
before the first occurrence, then the cutting of what follows it. -/
def splitChars (sep : Char) : List Char → List (List Char)
  | [] => [[]]
  | c :: cs =>
    if c = sep then [] :: splitChars sep cs
    else
      match splitChars sep cs with
      | [] => [[c]]
      | seg :: segs => (c :: seg) :: segs

/-- The standard library's `strings.Split` for a separator of one character. -/
def Split (s : String) (sep : Char) : List String :=
  (splitChars sep s.data).map String.mk

def TrimLeftFunc (s : List Char) (f : Char → Bool) : List Char := s.dropWhile f

def TrimRightFunc (s : List Char) (f : Char → Bool) : List Char :=
  (s.reverse.dropWhile f).reverse

/-- The standard library's `strings.TrimSpace`: leading and trailing white
space, as defined by Unicode, is removed. -/
def TrimSpace (s : String) : String :=
  String.mk (TrimRightFunc (TrimLeftFunc s.data unicode.IsSpace) unicode.IsSpace)

end strings

namespace lo

/-- The library function `lo.Filter`: the elements accepted by the predicate,
which also receives the index, in their original order. -/
def filterFrom {α : Type} (f : α → Nat → Bool) : Nat → List α → List α
  | _, [] => []
  | i, x :: xs => if f x i then x :: filterFrom f (i + 1) xs else filterFrom f (i + 1) xs

def Filter {α : Type} (collection : List α) (f : α → Nat → Bool) : List α :=
  filterFrom f 0 collection

end lo

namespace dbtesting

def parseSchema (schema : String) : List String :=
  lo.Filter (strings.Split schema ';') (fun s _ => decide (strings.TrimSpace s ≠ ""))

/-- In the words of the specification: the segments of the schema between
semicolons. -/
def specSegments (schema : String) : List (List Char) := schema.data.splitOn ';'

/-- In the words of the specification: a segment holds at least one character
that is not white space. -/
def specNonBlank (seg : List Char) : Bool := seg.any (fun c => !unicode.IsSpace c)

end dbtesting

/-! ## Concrete drivers and requests used to exercise the definitions -/

namespace sample

/-- A classifier that recognises one driver error as not-found. -/
def isNotFound : dbutil.NotFoundClassifier :=
  fun err => decide (err = GoError.new "no rows in result set")

def pkg : session.Package := session.initialPackage isNotFound

/-- A store holding one session, of identifier zero, owned by user 7. -/
def goodDriver : driver.Driver where
  Begin := none
  FindUserSessionByID := fun id =>
    if id = 0 then .ok ⟨0, 7⟩ else .error (.new "no rows in result set")
  ExpireSessionByID := fun _ => none
  Commit := none

/-- A store without any session. -/
def emptyDriver : driver.Driver where
  Begin := none
  FindUserSessionByID := fun _ => .error (.new "no rows in result set")
  ExpireSessionByID := fun _ => none
  Commit := none

/-- A store whose commit and whose expire query fail. -/
def failingDriver : driver.Driver where
  Begin := none
  FindUserSessionByID := fun _ => .ok ⟨0, 7⟩
  ExpireSessionByID := fun _ => some (.new "connection reset")
  Commit := some (.new "connection reset")

def strat (d : driver.Driver) : session.session := session.New d ⟨"usid"⟩

/-- A request with the cookie `usid=YQ==` (the encoding of the byte 97). -/
def reqA : Request Unit := ⟨[("usid", "YQ==")], none⟩

/-- A request with the cookie `usid=Yg==` (the encoding of the byte 98). -/
def reqB : Request Unit := ⟨[("usid", "Yg==")], none⟩

/-- A request whose cookie is not base64. -/
def reqBad : Request Unit := ⟨[("usid", "%%%")], none⟩

/-- A request without cookies and without a resolved user. -/
def reqNone : Request Unit := ⟨[], none⟩

/-- A request of the resolved user 7. -/
def reqUser : Request Unit := ⟨[("usid", "YQ==")], some ⟨7, ()⟩⟩

end sample

namespace passwordreset

/-- An underlying handler that rejects every confirm with a wrapped
used-token error. -/
def usedTokenHandler : FormHandler :=
  ⟨⟨fun _ => none, fun _ _ => some (.wrap "confirm" ErrUsedPasswordResetToken)⟩⟩

end passwordreset

/-! ## Properties of `session.Authenticate` -/

namespace session

/-- C3: `Authenticate` never returns a user next to an error; it returns the
Unauthorized sentinel itself exactly when the cookie is empty or absent, or when
the cookie decodes, the transaction begins and the lookup reports not-found.
A decode failure, a failure to begin, any other lookup error and a commit failure
each give the wrapped cause, which is not the sentinel. -/
theorem authenticate_unauthorized_iff {T : Type} (p : Package) (s : session) (r : Request T) :
    ((Authenticate p s r).result.2 = some user.ErrUnauthorizedUser ↔
      (cookie.Get r p.CookieName = "" ∨
        ∃ bytes err, decodeSession (cookie.Get r p.CookieName) = .ok bytes ∧
          s.driver.Begin = none ∧
          s.driver.FindUserSessionByID uuid.Nil = .error err ∧
          p.IsNotFoundError err = true)) ∧
    ((Authenticate p s r).result.2 = some user.ErrUnauthorizedUser →
      (Authenticate p s r).result.1 = none) ∧
    (∀ e, (Authenticate p s r).result.2 = some e → e ≠ user.ErrUnauthorizedUser →
      ∃ text cause, e = GoError.wrap text cause ∧
        (decodeSession (cookie.Get r p.CookieName) = .error cause ∨
          s.driver.Begin = some cause ∨
          (s.driver.FindUserSessionByID uuid.Nil = .error cause ∧
            p.IsNotFoundError cause = false) ∨
          s.driver.Commit = some cause)) ∧
    (cookie.Get r p.CookieName ≠ "" →
      (∀ cause, decodeSession (cookie.Get r p.CookieName) = .error cause →
        (Authenticate p s r).result.2 =
          some (.wrap "authentication/session: failed to decode session" cause)) ∧
      (∀ bytes, decodeSession (cookie.Get r p.CookieName) = .ok bytes →
        (∀ cause, s.driver.Begin = some cause →
          (Authenticate p s r).result.2 =
            some (.wrap "authentication/session: failed to begin transaction" cause)) ∧
        (s.driver.Begin = none →
          (∀ cause, s.driver.FindUserSessionByID uuid.Nil = .error cause →
            p.IsNotFoundError cause = false →
            (Authenticate p s r).result.2 =
              some (.wrap "authentication/session: failed to find user session" cause)) ∧
          (∀ found cause, s.driver.FindUserSessionByID uuid.Nil = .ok found →
            s.driver.Commit = some cause →
            (Authenticate p s r).result.2 =
              some (.wrap "authentication/session: failed to commit transaction" cause))))) := by
  unfold Authenticate authenticateTx
  by_cases hval : cookie.Get r p.CookieName = ""
  · simp [hval]
  · cases hdec : decodeSession (cookie.Get r p.CookieName) with
    | error derr =>
      simp [hval, hdec, user.ErrUnauthorizedUser]
      exact ⟨_, _, ⟨rfl, rfl⟩, Or.inl rfl⟩
    | ok bytes =>
      cases hbeg : s.driver.Begin with
      | some berr =>
        simp [hval, hdec, hbeg, user.ErrUnauthorizedUser]
        exact ⟨_, _, ⟨rfl, rfl⟩, Or.inl rfl⟩
      | none =>
        cases hfind : s.driver.FindUserSessionByID uuid.Nil with
        | error ferr =>
          cases hnf : p.IsNotFoundError ferr
          · simp [hval, hdec, hbeg, hfind, hnf, user.ErrUnauthorizedUser]
            exact ⟨_, _, ⟨rfl, rfl⟩, Or.inl ⟨rfl, hnf⟩⟩
          · simp [hval, hdec, hbeg, hfind, hnf, user.ErrUnauthorizedUser]
        | ok found =>
          cases hcom : s.driver.Commit <;>
            simp [hval, hdec, hbeg, hfind, hcom, user.ErrUnauthorizedUser]

/-- C4: a non-empty cookie that is not URL-safe base64 stops `Authenticate`
right after the cookie is read: the driver is never called (no transaction, no
lookup) and the error returned is the wrapped decoding error, which is neither
nil nor the Unauthorized sentinel. -/
theorem authenticate_decode_failure_skips_store {T : Type} (p : Package) (s : session)
    (r : Request T) (cause : GoError)
    (hval : cookie.Get r p.CookieName ≠ "")
    (hdec : base64.URLEncoding.DecodeString (cookie.Get r p.CookieName) = .error cause) :
    (Authenticate p s r).trace = [Event.cookieGet p.CookieName] ∧
    Event.driverBegin ∉ (Authenticate p s r).trace ∧
    (∀ id, Event.findUserSessionByID id ∉ (Authenticate p s r).trace) ∧
    (Authenticate p s r).result =
      (none, some (.wrap "authentication/session: failed to decode session"
        (.wrap "authentication/session: failed to decode cookie" cause))) ∧
    (Authenticate p s r).result.2 ≠ none ∧
    (Authenticate p s r).result.2 ≠ some user.ErrUnauthorizedUser := by
  have h : decodeSession (cookie.Get r p.CookieName) =
      .error (.wrap "authentication/session: failed to decode cookie" cause) := by
    simp [decodeSession, hdec]
  unfold Authenticate
  simp [hval, h, user.ErrUnauthorizedUser]

/-- C7: once the transaction has begun, the deferred rollback is the last thing
`Authenticate` does on every path; a nil error is returned only after commit was
called; commit is called exactly when the lookup succeeded; and a failing commit
is returned as a non-nil error although the lookup succeeded. -/
theorem authenticate_releases_transaction {T : Type} (p : Package) (s : session)
    (r : Request T) (bytes : List Nat)
    (hval : cookie.Get r p.CookieName ≠ "")
    (hdec : decodeSession (cookie.Get r p.CookieName) = .ok bytes)
    (hbeg : s.driver.Begin = none) :
    (Authenticate p s r).trace.getLast? = some Event.txRollback ∧
    (Authenticate p s r).trace.count Event.txRollback = 1 ∧
    ((Authenticate p s r).result.2 = none → Event.txCommit ∈ (Authenticate p s r).trace) ∧
    (Event.txCommit ∈ (Authenticate p s r).trace ↔
      ∃ found, s.driver.FindUserSessionByID uuid.Nil = .ok found) ∧
    (∀ found cause, s.driver.FindUserSessionByID uuid.Nil = .ok found →
      s.driver.Commit = some cause →
      (Authenticate p s r).result.2 =
        some (.wrap "authentication/session: failed to commit transaction" cause) ∧
      (Authenticate p s r).trace =
        [.cookieGet p.CookieName, .driverBegin, .txQueries, .findUserSessionByID uuid.Nil,
          .txCommit, .txRollback]) := by
  unfold Authenticate authenticateTx
  cases hfind : s.driver.FindUserSessionByID uuid.Nil with
  | error ferr =>
    cases hnf : p.IsNotFoundError ferr <;> simp [hval, hdec, hbeg, hfind, hnf]
  | ok found =>
    cases hcom : s.driver.Commit <;> simp [hval, hdec, hbeg, hfind, hcom]

/-- No path of `Authenticate` returns a user. -/
theorem authenticate_user_always_nil {T : Type} (p : Package) (s : session) (r : Request T) :
    (Authenticate p s r).result.1 = none := by
  unfold Authenticate authenticateTx
  by_cases hval : cookie.Get r p.CookieName = ""
  · simp [hval]
  · cases hdec : decodeSession (cookie.Get r p.CookieName) with
    | error derr => simp [hval, hdec]
    | ok bytes =>
      cases hbeg : s.driver.Begin with
      | some berr => simp [hval, hdec, hbeg]
      | none =>
        cases hfind : s.driver.FindUserSessionByID uuid.Nil with
        | error ferr => cases hnf : p.IsNotFoundError ferr <;> simp [hval, hdec, hbeg, hfind, hnf]
        | ok found => cases hcom : s.driver.Commit <;> simp [hval, hdec, hbeg, hfind, hcom]

/-- Whatever the request, a lookup issued by `Authenticate` is by the zero UUID. -/
theorem authenticate_lookup_key_is_nil {T : Type} (p : Package) (s : session) (r : Request T)
    (id : UUID) (h : Event.findUserSessionByID id ∈ (Authenticate p s r).trace) :
    id = uuid.Nil := by
  unfold Authenticate authenticateTx at h
  by_cases hval : cookie.Get r p.CookieName = ""
  · simp [hval] at h
  · cases hdec : decodeSession (cookie.Get r p.CookieName) with
    | error derr => simp [hval, hdec] at h
    | ok bytes =>
      cases hbeg : s.driver.Begin with
      | some berr => simp [hval, hdec, hbeg] at h
      | none =>
        cases hfind : s.driver.FindUserSessionByID uuid.Nil with
        | error ferr =>
          cases hnf : p.IsNotFoundError ferr <;> simpa [hval, hdec, hbeg, hfind, hnf] using h
        | ok found =>
          cases hcom : s.driver.Commit <;> simpa [hval, hdec, hbeg, hfind, hcom] using h

/-- C1 (the code departs from the claim): on the path where the cookie decodes
and begin, lookup and commit all succeed, `Authenticate` returns a nil user and a
nil error; here the session found belongs to user 7 and no user is returned. -/
theorem authenticate_success_returns_nil_user :
    cookie.Get sample.reqA sample.pkg.CookieName = "YQ==" ∧
    decodeSession "YQ==" = .ok [97] ∧
    sample.goodDriver.Begin = none ∧
    sample.goodDriver.FindUserSessionByID uuid.Nil = .ok ⟨0, 7⟩ ∧
    sample.goodDriver.Commit = none ∧
    (Authenticate sample.pkg (sample.strat sample.goodDriver) sample.reqA).result =
      (none, none) := by
  refine ⟨by decide, rfl, rfl, rfl, rfl, rfl⟩

/-- C2 (the code departs from the claim): two requests whose cookies decode to
different identifiers cause the very same lookup, by the zero UUID; the decoded
identifier never reaches `FindUserSessionByID`. -/
theorem authenticate_lookup_ignores_cookie :
    decodeSession (cookie.Get sample.reqA sample.pkg.CookieName) = .ok [97] ∧
    decodeSession (cookie.Get sample.reqB sample.pkg.CookieName) = .ok [98] ∧
    (Authenticate sample.pkg (sample.strat sample.goodDriver) sample.reqA).trace =
      [.cookieGet "usid", .driverBegin, .txQueries, .findUserSessionByID uuid.Nil,
        .txCommit, .txRollback] ∧
    (Authenticate sample.pkg (sample.strat sample.goodDriver) sample.reqB).trace =
      [.cookieGet "usid", .driverBegin, .txQueries, .findUserSessionByID uuid.Nil,
        .txCommit, .txRollback] := by
  refine ⟨rfl, rfl, rfl, rfl⟩

/-- C9 (the code departs from the claim): for an authenticator configured with
the cookie name `sid`, `Authenticate` still reads the cookie `usid` named by the
package variable, finds nothing and answers Unauthorized, while `LogOut` deletes
the configured cookie `sid`. -/
theorem authenticate_reads_package_cookie_name :
    (Authenticate sample.pkg (New sample.goodDriver ⟨"sid"⟩)
      (⟨[("sid", "YQ==")], some ⟨7, ()⟩⟩ : Request Unit)).trace = [.cookieGet "usid"] ∧
    (Authenticate sample.pkg (New sample.goodDriver ⟨"sid"⟩)
      (⟨[("sid", "YQ==")], some ⟨7, ()⟩⟩ : Request Unit)).result =
        (none, some user.ErrUnauthorizedUser) ∧
    (LogOut (New sample.goodDriver ⟨"sid"⟩)
      (⟨[("sid", "YQ==")], some ⟨7, ()⟩⟩ : Request Unit)).trace =
        [.driverQueries, .expireSessionByID 7, .cookieDelete "sid"] := by
  refine ⟨rfl, rfl, rfl⟩

/-! ## Properties of `session.LogOut` -/

/-- C6: without a resolved user `LogOut` answers the HTTP error that carries the
Unauthorized sentinel with status 401, sends no expire query and deletes no
cookie; with a user it sends exactly one expire query, for that user's
identifier. -/
theorem logOut_requires_user {T : Type} (s : session) (r : Request T) :
    (user.FromRequest r = none →
      (LogOut s r).result = some (httperror.FromError user.ErrUnauthorizedUser 401) ∧
      (∀ id, Event.expireSessionByID id ∉ (LogOut s r).trace) ∧
      (∀ name, Event.cookieDelete name ∉ (LogOut s r).trace)) ∧
    (∀ usr, user.FromRequest r = some usr →
      (LogOut s r).trace.filter Event.isExpire = [Event.expireSessionByID usr.ID]) := by
  unfold LogOut
  constructor
  · intro h
    simp [h, http.StatusUnauthorized]
  · intro usr h
    cases hexp : s.driver.ExpireSessionByID usr.ID <;>
      simp [h, hexp, List.filter, Event.isExpire]

/-- C5 (counterexample): the request carries the resolved user 7 and the expire
query fails; the expire call is made, the error is answered with status 500, and
the cookie is not deleted. -/
theorem logOut_failed_expire_keeps_cookie :
    user.FromRequest sample.reqUser = some ⟨7, ()⟩ ∧
    (LogOut (sample.strat sample.failingDriver) sample.reqUser).trace =
      [.driverQueries, .expireSessionByID 7] ∧
    Event.cookieDelete "usid" ∉
      (LogOut (sample.strat sample.failingDriver) sample.reqUser).trace ∧
    (LogOut (sample.strat sample.failingDriver) sample.reqUser).result =
      some (httperror.FromError (.new "connection reset") 500) := by
  refine ⟨rfl, rfl, by decide, rfl⟩

/-- C5 (amended): for a request that carries a resolved user, `LogOut` deletes
the configured cookie right after the expire call when that call succeeded, and
then returns nil; when the expire call fails it returns the error with status
500 and deletes no cookie. -/
theorem logOut_deletes_cookie_after_successful_expire {T : Type} (s : session)
    (r : Request T) (usr : strategy.User T) (h : user.FromRequest r = some usr) :
    (s.driver.ExpireSessionByID usr.ID = none →
      (LogOut s r).trace =
        [.driverQueries, .expireSessionByID usr.ID, .cookieDelete s.config.CookieName] ∧
      (LogOut s r).result = none) ∧
    (∀ err, s.driver.ExpireSessionByID usr.ID = some err →
      (LogOut s r).trace = [.driverQueries, .expireSessionByID usr.ID] ∧
      (∀ name, Event.cookieDelete name ∉ (LogOut s r).trace) ∧
      (LogOut s r).result = some (httperror.FromError err 500)) := by
  unfold LogOut
  constructor
  · intro hexp
    simp [h, hexp]
  · intro err hexp
    simp [h, hexp, http.StatusInternalServerError]

/-! ## The properties at concrete inputs -/

/-- C3 at concrete inputs: an unknown session and a missing cookie both give the
sentinel, a failing commit gives the wrapped cause. -/
theorem authenticate_unauthorized_iff_witness :
    (Authenticate sample.pkg (sample.strat sample.emptyDriver) sample.reqA).result.2 =
        some user.ErrUnauthorizedUser ∧
    (Authenticate sample.pkg (sample.strat sample.goodDriver) sample.reqNone).result.2 =
        some user.ErrUnauthorizedUser ∧
    (Authenticate sample.pkg (sample.strat sample.failingDriver) sample.reqA).result.2 =
        some (.wrap "authentication/session: failed to commit transaction"
          (.new "connection reset")) :=
  ⟨(authenticate_unauthorized_iff sample.pkg (sample.strat sample.emptyDriver) sample.reqA).1.mpr
      (Or.inr ⟨[97], .new "no rows in result set", rfl, rfl, rfl, by decide⟩),
    (authenticate_unauthorized_iff sample.pkg (sample.strat sample.goodDriver)
      sample.reqNone).1.mpr (Or.inl (by decide)),
    ((((authenticate_unauthorized_iff sample.pkg (sample.strat sample.failingDriver)
      sample.reqA).2.2.2 (by decide)).2 [97] rfl).2 rfl).2 ⟨0, 7⟩ (.new "connection reset")
        rfl rfl⟩

/-- C4 at a concrete input: the cookie `%%%` is read and nothing else happens. -/
theorem authenticate_decode_failure_skips_store_witness :
    cookie.Get sample.reqBad sample.pkg.CookieName ≠ "" ∧
    (Authenticate sample.pkg (sample.strat sample.goodDriver) sample.reqBad).trace =
      [Event.cookieGet "usid"] ∧
    (Authenticate sample.pkg (sample.strat sample.goodDriver) sample.reqBad).result.2 ≠
      some user.ErrUnauthorizedUser :=
  ⟨by decide,
    (authenticate_decode_failure_skips_store sample.pkg (sample.strat sample.goodDriver)
      sample.reqBad (.new "illegal base64 data") (by decide) rfl).1,
    (authenticate_decode_failure_skips_store sample.pkg (sample.strat sample.goodDriver)
      sample.reqBad (.new "illegal base64 data") (by decide) rfl).2.2.2.2.2⟩

/-- C7 at a concrete input: the commit fails, the rollback still closes the run. -/
theorem authenticate_releases_transaction_witness :
    cookie.Get sample.reqA sample.pkg.CookieName ≠ "" ∧
    decodeSession (cookie.Get sample.reqA sample.pkg.CookieName) = .ok [97] ∧
    (sample.strat sample.failingDriver).driver.Begin = none ∧
    (Authenticate sample.pkg (sample.strat sample.failingDriver) sample.reqA).trace.getLast? =
      some Event.txRollback ∧
    (Authenticate sample.pkg (sample.strat sample.failingDriver) sample.reqA).result.2 =
      some (.wrap "authentication/session: failed to commit transaction"
        (.new "connection reset")) :=
  ⟨by decide, rfl, rfl,
    (authenticate_releases_transaction sample.pkg (sample.strat sample.failingDriver)
      sample.reqA [97] (by decide) rfl rfl).1,
    ((authenticate_releases_transaction sample.pkg (sample.strat sample.failingDriver)
      sample.reqA [97] (by decide) rfl rfl).2.2.2.2 ⟨0, 7⟩ (.new "connection reset")
        rfl rfl).1⟩

/-- C6 at concrete inputs: one request without a user, one of user 7. -/
theorem logOut_requires_user_witness :
    (LogOut (sample.strat sample.goodDriver) sample.reqNone).result =
      some (httperror.FromError user.ErrUnauthorizedUser 401) ∧
    (LogOut (sample.strat sample.goodDriver) sample.reqUser).trace.filter Event.isExpire =
      [Event.expireSessionByID 7] :=
  ⟨((logOut_requires_user (sample.strat sample.goodDriver) sample.reqNone).1 rfl).1,
    (logOut_requires_user (sample.strat sample.goodDriver) sample.reqUser).2 ⟨7, ()⟩ rfl⟩

/-- C5 (amended) at concrete inputs: user 7 with a working and with a failing
expire query. -/
theorem logOut_deletes_cookie_after_successful_expire_witness :
    user.FromRequest sample.reqUser = some ⟨7, ()⟩ ∧
    (LogOut (sample.strat sample.goodDriver) sample.reqUser).trace =
      [.driverQueries, .expireSessionByID 7, .cookieDelete "usid"] ∧
    (LogOut (sample.strat sample.failingDriver) sample.reqUser).result =
      some (httperror.FromError (.new "connection reset") 500) :=
  ⟨rfl,
    ((logOut_deletes_cookie_after_successful_expire (sample.strat sample.goodDriver)
      sample.reqUser ⟨7, ()⟩ rfl).1 rfl).1,
    ((logOut_deletes_cookie_after_successful_expire (sample.strat sample.failingDriver)
      sample.reqUser ⟨7, ()⟩ rfl).2 (.new "connection reset") rfl).2.2⟩

end session

/-! ## Properties of `dbtesting.parseSchema` -/

namespace strings

/-- A cutting always has at least one segment. -/
theorem splitChars_ne_nil (sep : Char) (l : List Char) : splitChars sep l ≠ [] := by
  induction l with
  | nil => simp [splitChars]
  | cons c cs ih =>
    unfold splitChars
    split
    · simp
    · split <;> simp

/-- The cutting agrees with the library function `List.splitOn`. -/
theorem splitChars_eq_splitOn (sep : Char) (l : List Char) :
    splitChars sep l = l.splitOn sep := by
  induction l with
  | nil => simp [splitChars]
  | cons c cs ih =>
    have hne := splitChars_ne_nil sep cs
    unfold splitChars
    rw [List.splitOn, List.splitOnP_cons, ← List.splitOn, ← ih]
    by_cases h : c = sep
    · simp [h]
    · cases hs : splitChars sep cs with
      | nil => exact absurd hs hne
      | cons seg segs => simp [h]

/-- No segment of a cutting holds the separator. -/
theorem splitChars_no_sep (sep : Char) (l : List Char) :
    ∀ seg ∈ splitChars sep l, sep ∉ seg := by
  induction l with
  | nil => simp [splitChars]
  | cons c cs ih =>
    unfold splitChars
    by_cases h : c = sep
    · simp only [h, if_true, List.mem_cons]
      rintro seg (rfl | hseg)
      · simp
      · exact ih seg hseg
    · cases hs : splitChars sep cs with
      | nil => simpa [h] using fun e => h e.symm
      | cons seg0 segs =>
        rw [hs] at ih
        simp only [h, if_false, List.mem_cons]
        rintro seg (rfl | hseg)
        · have := ih seg0 (by simp)
          simp only [List.mem_cons, not_or]
          exact ⟨fun e => h e.symm, this⟩
        · exact ih seg (by simp [hseg])

/-- Every character of a segment is a character of the text that was cut. -/
theorem splitChars_subset (sep : Char) (l : List Char) :
    ∀ seg ∈ splitChars sep l, ∀ c ∈ seg, c ∈ l := by
  induction l with
  | nil => simp [splitChars]
  | cons c cs ih =>
    unfold splitChars
    by_cases h : c = sep
    · simp only [h, if_true, List.mem_cons]
      rintro seg (rfl | hseg) x hx
      · simp at hx
      · exact Or.inr (ih seg hseg x hx)
    · cases hs : splitChars sep cs with
      | nil => simp [h]
      | cons seg0 segs =>
        rw [hs] at ih
        simp only [h, if_false, List.mem_cons]
        rintro seg (rfl | hseg) x hx
        · rcases List.mem_cons.mp hx with hx | hx
          · exact Or.inl hx
          · exact Or.inr (ih seg0 (by simp) x hx)
        · exact Or.inr (ih seg (by simp [hseg]) x hx)

/-- If what is left after dropping the leading `f`-characters satisfies `f`
throughout, the whole list does. -/
theorem dropWhile_all_of_forall (f : Char → Bool) (l : List Char)
    (h : ∀ x ∈ l.dropWhile f, f x = true) : ∀ x ∈ l, f x = true := by
  induction l with
  | nil => simp
  | cons c cs ih =>
    by_cases hc : f c = true
    · simp only [List.dropWhile_cons, hc, if_true] at h
      intro x hx
      rcases List.mem_cons.mp hx with rfl | hx
      · exact hc
      · exact ih h x hx
    · have hd : (c :: cs).dropWhile f = c :: cs := by simp [List.dropWhile_cons, hc]
      rw [hd] at h
      exact h

/-- Trimming leaves something exactly when some character is not white space. -/
theorem trimSpace_ne_empty_iff (s : String) :
    TrimSpace s ≠ "" ↔ ∃ c ∈ s.data, unicode.IsSpace c = false := by
  have hmk : ∀ l : List Char, String.mk l = "" ↔ l = [] := by
    intro l
    constructor
    · intro h
      have := congrArg String.data h
      simpa using this
    · rintro rfl
      rfl
  unfold TrimSpace TrimRightFunc TrimLeftFunc
  rw [Ne, hmk, List.reverse_eq_nil_iff, List.dropWhile_eq_nil_iff]
  constructor
  · intro h
    by_contra hall
    apply h
    have hs : ∀ x ∈ s.data, unicode.IsSpace x = true := by
      intro x hx
      by_contra hx2
      exact hall ⟨x, hx, by simpa using hx2⟩
    have : s.data.dropWhile unicode.IsSpace = [] := List.dropWhile_eq_nil_iff.mpr hs
    simp [this]
  · rintro ⟨c, hc, hsp⟩ hall
    have h1 : ∀ x ∈ s.data.dropWhile unicode.IsSpace, unicode.IsSpace x = true := by
      intro x hx
      exact hall x (List.mem_reverse.mpr hx)
    have := dropWhile_all_of_forall _ _ h1 c hc
    simp [hsp] at this

end strings

namespace lo

/-- With a predicate that ignores the index, `lo.Filter` is `List.filter`. -/
theorem filterFrom_eq_filter {α : Type} (g : α → Bool) (i : Nat) (l : List α) :
    filterFrom (fun x _ => g x) i l = l.filter g := by
  induction l generalizing i with
  | nil => rfl
  | cons x xs ih =>
    unfold filterFrom
    by_cases h : g x = true <;> simp [h, ih, List.filter_cons]

end lo

namespace dbtesting

/-- The code and the wording of the specification describe the same list. -/
theorem parseSchema_eq_filter (schema : String) :
    parseSchema schema =
      ((specSegments schema).filter specNonBlank).map String.mk := by
  unfold parseSchema lo.Filter strings.Split specSegments
  rw [lo.filterFrom_eq_filter (fun s => decide (strings.TrimSpace s ≠ "")),
    strings.splitChars_eq_splitOn, List.filter_map]
  congr 1
  apply List.filter_congr
  intro seg _
  have h := strings.trimSpace_ne_empty_iff (String.mk seg)
  by_cases hb : specNonBlank seg = true
  · have : ∃ c ∈ seg, unicode.IsSpace c = false := by
      simpa [specNonBlank] using hb
    simp [hb, h.mpr this]
  · have hn : ¬ ∃ c ∈ seg, unicode.IsSpace c = false := by
      simpa [specNonBlank] using hb
    have : strings.TrimSpace (String.mk seg) = "" :=
      not_not.mp (fun hne => hn (h.mp hne))
    simp only [Bool.not_eq_true] at hb
    simp [hb, this]

/-- C10: `parseSchema` returns, in their order and unchanged, exactly the
segments of the schema between semicolons that hold a character which is not
white space; hence no statement returned is blank or contains a semicolon, and
a schema of white space and semicolons only (the empty schema included) gives
the empty list. -/
theorem parseSchema_spec (schema : String) :
    parseSchema schema = ((specSegments schema).filter specNonBlank).map String.mk ∧
    (parseSchema schema).Sublist (strings.Split schema ';') ∧
    (∀ stmt ∈ parseSchema schema,
      strings.TrimSpace stmt ≠ "" ∧
      (∃ c ∈ stmt.data, unicode.IsSpace c = false) ∧
      ';' ∉ stmt.data) ∧
    ((∀ c ∈ schema.data, unicode.IsSpace c = true ∨ c = ';') → parseSchema schema = []) ∧
    parseSchema "" = [] := by
  have heq := parseSchema_eq_filter schema
  have hmem : ∀ stmt ∈ parseSchema schema,
      ∃ seg ∈ strings.splitChars ';' schema.data, specNonBlank seg = true ∧ stmt = String.mk seg := by
    intro stmt hstmt
    rw [heq, specSegments, ← strings.splitChars_eq_splitOn] at hstmt
    obtain ⟨seg, hseg, rfl⟩ := List.mem_map.mp hstmt
    obtain ⟨h1, h2⟩ := List.mem_filter.mp hseg
    exact ⟨seg, h1, h2, rfl⟩
  refine ⟨heq, ?_, ?_, ?_, by decide⟩
  · rw [heq, specSegments, ← strings.splitChars_eq_splitOn]
    exact (List.filter_sublist _).map String.mk
  · intro stmt hstmt
    obtain ⟨seg, hseg, hnb, rfl⟩ := hmem stmt hstmt
    have hex : ∃ c ∈ seg, unicode.IsSpace c = false := by
      simpa [specNonBlank] using hnb
    exact ⟨(strings.trimSpace_ne_empty_iff _).mpr hex, hex,
      strings.splitChars_no_sep _ _ seg hseg⟩
  · intro hall
    rw [heq, specSegments, ← strings.splitChars_eq_splitOn]
    simp only [List.map_eq_nil_iff, List.filter_eq_nil_iff]
    intro seg hseg hnb
    obtain ⟨c, hc, hsp⟩ : ∃ c ∈ seg, unicode.IsSpace c = false := by
      simpa [specNonBlank] using hnb
    have hin := strings.splitChars_subset _ _ seg hseg c hc
    rcases hall c hin with h | h
    · simp [h] at hsp
    · exact strings.splitChars_no_sep _ _ seg hseg (h ▸ hc)

/-- C10 at concrete schemas: three statements survive out of five segments, and
a schema of blanks and semicolons has none. -/
theorem parseSchema_spec_witness :
    parseSchema "a; b;;  ;c\n" = ["a", " b", "c\n"] ∧
    (∀ c ∈ (" ;\t;\n" : String).data, unicode.IsSpace c = true ∨ c = ';') ∧
    parseSchema " ;\t;\n" = [] :=
  ⟨by decide, by decide,
    (parseSchema_spec " ;\t;\n").2.2.2.1 (by decide)⟩

end dbtesting

/-! ## Properties of `passwordreset.FormHandler.HandlePasswordResetConfirm` -/

namespace passwordreset

/-- C8: `HandlePasswordResetConfirm` returns nil exactly when the form parser
and the underlying confirm both return nil.  A parser error is answered with
status 400; an error of the underlying confirm is answered with 403 when it is
the authorized-user conflict, otherwise with 400 when it is a used reset token,
and with 500 in every other case.  The classes are tested in this order by the
code, and the error answered always carries the cause. -/
theorem handlePasswordResetConfirm_status {T : Type} (h : FormHandler) (req : Request T)
    (parsed : ConfirmForm × Option GoError) :
    h.HandlePasswordResetConfirm req = h.confirmParsed (h.parsePasswordResetConfirmForm req) ∧
    (h.HandlePasswordResetConfirm req = none ↔
      (h.parsePasswordResetConfirmForm req).2 = none ∧
      h.h.HandlePasswordResetConfirm (h.parsePasswordResetConfirmForm req).1.Password
        (h.parsePasswordResetConfirmForm req).1.ResetToken = none) ∧
    (h.confirmParsed parsed = none ↔
      parsed.2 = none ∧
      h.h.HandlePasswordResetConfirm parsed.1.Password parsed.1.ResetToken = none) ∧
    (∀ err, parsed.2 = some err →
      h.confirmParsed parsed = some (httperror.FromError err 400)) ∧
    (∀ err, parsed.2 = none →
      h.h.HandlePasswordResetConfirm parsed.1.Password parsed.1.ResetToken = some err →
      (errors.Is err ErrAuthorizedUser = true →
        h.confirmParsed parsed = some (httperror.FromError err 403)) ∧
      (errors.Is err ErrAuthorizedUser = false →
        errors.Is err ErrUsedPasswordResetToken = true →
        h.confirmParsed parsed = some (httperror.FromError err 400)) ∧
      (errors.Is err ErrAuthorizedUser = false →
        errors.Is err ErrUsedPasswordResetToken = false →
        h.confirmParsed parsed = some (httperror.FromError err 500))) := by
  have key : ∀ q : ConfirmForm × Option GoError, (h.confirmParsed q = none ↔
      q.2 = none ∧ h.h.HandlePasswordResetConfirm q.1.Password q.1.ResetToken = none) := by
    intro q
    unfold FormHandler.confirmParsed
    cases hq : q.2 with
    | some e => simp
    | none =>
      cases hc : h.h.HandlePasswordResetConfirm q.1.Password q.1.ResetToken with
      | none => simp
      | some e =>
        by_cases ha : errors.Is e ErrAuthorizedUser = true
        · simp [ha]
        · by_cases hu : errors.Is e ErrUsedPasswordResetToken = true <;> simp [ha, hu]
  refine ⟨rfl, key _, key _, ?_, ?_⟩
  · intro err hp
    simp [FormHandler.confirmParsed, hp, http.StatusBadRequest]
  · intro err hp hc
    unfold FormHandler.confirmParsed
    refine ⟨?_, ?_, ?_⟩
    · intro ha
      simp [hp, hc, ha, http.StatusForbidden]
    · intro ha hu
      simp [hp, hc, ha, hu, http.StatusBadRequest]
    · intro ha hu
      simp [hp, hc, ha, hu, http.StatusInternalServerError]

/-- C8 at concrete inputs: a used reset token is answered with status 400, a
parser error as well. -/
theorem handlePasswordResetConfirm_status_witness :
    usedTokenHandler.HandlePasswordResetConfirm (⟨[], none⟩ : Request Unit) =
      some (httperror.FromError (.wrap "confirm" ErrUsedPasswordResetToken) 400) ∧
    usedTokenHandler.confirmParsed (⟨"pw", "tok"⟩, some (.new "bad form")) =
      some (httperror.FromError (.new "bad form") 400) :=
  ⟨(handlePasswordResetConfirm_status usedTokenHandler (⟨[], none⟩ : Request Unit)
      (⟨"", ""⟩, none)).1.trans
      (((handlePasswordResetConfirm_status usedTokenHandler (⟨[], none⟩ : Request Unit)
        (⟨"", ""⟩, none)).2.2.2.2 (.wrap "confirm" ErrUsedPasswordResetToken) rfl rfl).2.1
          (by decide) (by decide)),
    (handlePasswordResetConfirm_status usedTokenHandler (⟨[], none⟩ : Request Unit)
      (⟨"pw", "tok"⟩, some (.new "bad form"))).2.2.2.1 (.new "bad form") rfl⟩

end passwordreset
